import Mathlib

/-!
Shallow embedding of the zp-prod registration / geocoding core.

Sources (JavaScript):
  - `src/src/services/knowledgeBaseService.js` — geocoding service part
    (geocodeVillage, isLocationInPuneZP, calculateRelevanceScore,
    extractAdministrativeDetails, cacheGeocode, getCachedGeocode),
    whatsapp service part (splitLongMessage),
    state manager part (REGISTRATION_STATES, createStateRecord,
    getCurrentState, updateStateWithFunctionResults, completeStateTransition)
  - `src/src/services/openaiService.js` — processRegistrationWithFunctions
  - `src/src/services/citizenService.js` — processRegistrationWithFunctionCalling,
    updateCitizenDataFromFunctions, completeRegistration

Modelling conventions:
  - JavaScript numbers are embedded as `ℚ` (confidences, coordinates, times)
    or `ℕ` (relevance scores, counters); times are measured in hours so the
    24-hour cache window of the source's millisecond arithmetic is `< 24`.
  - JavaScript strings are Lean `String`s; `string.toLowerCase()` is
    `toLowerStr`, `a.includes(b)` is `strIncludes a b`.
  - Nullable JavaScript values are `Option`s; a `null`-or-absent field is
    `none`.  The empty object `{}` passed for `extractedData` in two call
    sites is modelled as `none`.
  - The external LLM (classifier / extractor / contextual-response
    generation) and the external geocoding provider are oracles: their
    outputs are parameters of the embedded functions.
  - Firestore collections are association lists / lists of records; a
    Firestore batch commit is a single pure function application.
  - Exceptions thrown by the runtime outside the modelled control flow
    (network stack, Firestore client) are not representable; every `catch`
    that the modelled control flow can actually reach is embedded.
  - Pure-audit fields that no code path reads back (`context`/`metadata` on
    state records, `expiresAt` on cache entries, timestamps other than
    `cachedAt`/`geocodedAt`) are not carried in the record types.
-/

/-- The two languages of the bot (`language === 'mr'` vs everything else,
which the source treats as English). -/
inductive Lang where
  | en
  | mr
deriving DecidableEq, Repr

/-- JavaScript `s.toLowerCase()` (restricted to per-character lowering). -/
def toLowerStr (s : String) : String := String.mk (s.data.map Char.toLower)

/-- The characters JavaScript's `\s` and `trim()` strip in the source's
inputs (the standard whitespace characters). -/
def isWs (c : Char) : Bool :=
  c == ' ' || c == '\t' || c == '\n' || c == '\r'

/-- JavaScript `s.trim()` over a character list. -/
def trimChars (l : List Char) : List Char :=
  ((l.dropWhile isWs).reverse.dropWhile isWs).reverse

/-- JavaScript `s.trim()`. -/
def trimStr (s : String) : String := String.mk (trimChars s.data)

/-- Whether `needle` occurs as a contiguous sublist of `hay`. -/
def containsSub (needle : List Char) : List Char → Bool
  | [] => needle.isEmpty
  | c :: t => needle.isPrefixOf (c :: t) || containsSub needle t

/-- JavaScript `hay.includes(needle)`. -/
def strIncludes (hay needle : String) : Bool :=
  containsSub needle.data hay.data

/-- A latitude/longitude pair (`geometry.location`). -/
structure LatLng where
  lat : ℚ
  lng : ℚ
deriving DecidableEq, Repr

/-- A bounding box as the source's `PUNE_ZP_BOUNDS` object. -/
structure Bounds where
  northeast : LatLng
  southwest : LatLng
deriving DecidableEq, Repr

/-- Pune Zilla Panchayat boundaries (approximate), from the geocoding
service: `19.5/75.0` northeast, `18.0/73.5` southwest (written with
`Rat.divInt` so that concrete runs evaluate; `PUNE_ZP_BOUNDS_values` checks
the decimals). -/
def PUNE_ZP_BOUNDS : Bounds :=
  { northeast := { lat := Rat.divInt 39 2, lng := 75 }
  , southwest := { lat := 18, lng := Rat.divInt 147 2 } }

/-- The bounds are exactly the source's decimal constants. -/
theorem PUNE_ZP_BOUNDS_values :
    PUNE_ZP_BOUNDS.northeast.lat = 19.5 ∧ PUNE_ZP_BOUNDS.northeast.lng = 75.0 ∧
    PUNE_ZP_BOUNDS.southwest.lat = 18.0 ∧ PUNE_ZP_BOUNDS.southwest.lng = 73.5 := by
  refine ⟨?_, ?_, ?_, ?_⟩ <;> norm_num [PUNE_ZP_BOUNDS, Rat.divInt_eq_div]

/-- `isLocationInPuneZP` from the geocoding service. -/
def isLocationInPuneZP (location : LatLng) : Bool :=
  decide (PUNE_ZP_BOUNDS.southwest.lat ≤ location.lat ∧
          location.lat ≤ PUNE_ZP_BOUNDS.northeast.lat ∧
          PUNE_ZP_BOUNDS.southwest.lng ≤ location.lng ∧
          location.lng ≤ PUNE_ZP_BOUNDS.northeast.lng)

/-- One entry of a Google geocoding result's `address_components`. -/
structure AddressComponent where
  long_name : String
  short_name : String
  types : List String
deriving DecidableEq, Repr

/-- The `geometry` object of a Google geocoding result. -/
structure Geometry where
  location : LatLng
  location_type : String
  bounds : Option (LatLng × LatLng)
deriving DecidableEq, Repr

/-- One Google geocoding result, with the fields the source reads. -/
structure GeoResult where
  formatted_address : String
  address_components : List AddressComponent
  geometry : Geometry
  place_id : String
deriving DecidableEq, Repr

/-- The exact/substring match points of `calculateRelevanceScore`'s loop
body: `+100` when a component name equals the lowered search term, else
`+50` when one contains it. -/
def exactOrSubstringScore (searchLower : String) (component : AddressComponent) : ℕ :=
  let longName := toLowerStr component.long_name
  let shortName := toLowerStr component.short_name
  if longName == searchLower || shortName == searchLower then 100
  else if strIncludes longName searchLower || strIncludes shortName searchLower then 50
  else 0

/-- The `+30` district bonus of `calculateRelevanceScore`'s loop body (a
second-level administrative component whose long name contains `pune`). -/
def districtBonusOf (component : AddressComponent) : ℕ :=
  if component.types.contains "administrative_area_level_2" &&
     strIncludes (toLowerStr component.long_name) "pune"
  then 30 else 0

/-- The `+20` state bonus of `calculateRelevanceScore`'s loop body (a
first-level administrative component whose long name contains
`maharashtra`). -/
def stateBonusOf (component : AddressComponent) : ℕ :=
  if component.types.contains "administrative_area_level_1" &&
     strIncludes (toLowerStr component.long_name) "maharashtra"
  then 20 else 0

/-- The per-component part of `calculateRelevanceScore`'s loop body: the
exact/substring match points plus the two administrative-level bonuses
that the source adds for each component. -/
def componentScore (searchLower : String) (component : AddressComponent) : ℕ :=
  exactOrSubstringScore searchLower component +
    districtBonusOf component + stateBonusOf component

/-- The `switch (result.geometry.location_type)` bonus of
`calculateRelevanceScore`. -/
def locationTypeBonus (location_type : String) : ℕ :=
  if location_type == "ROOFTOP" then 20
  else if location_type == "RANGE_INTERPOLATED" then 15
  else if location_type == "GEOMETRIC_CENTER" then 10
  else if location_type == "APPROXIMATE" then 5
  else 0

/-- `calculateRelevanceScore` from the geocoding service. -/
def calculateRelevanceScore (result : GeoResult) (searchTerm : String) : ℕ :=
  let searchLower := toLowerStr searchTerm
  let addressLower := toLowerStr result.formatted_address
  (result.address_components.map (componentScore searchLower)).sum
    + (if strIncludes addressLower searchLower then 25 else 0)
    + locationTypeBonus result.geometry.location_type

/-- The administrative details extracted from a result's address
components (`extractAdministrativeDetails`). -/
structure AdminDetails where
  village : Option String
  taluka : Option String
  district : Option String
  state : Option String
  country : Option String
  pincode : Option String
deriving DecidableEq, Repr

/-- The all-`null` initial `details` object of
`extractAdministrativeDetails`. -/
def emptyAdminDetails : AdminDetails :=
  { village := none, taluka := none, district := none
  , state := none, country := none, pincode := none }

/-- `extractAdministrativeDetails` from the geocoding service (the source's
for-loop assigns into `details`, so a later matching component overwrites an
earlier one). -/
def extractAdministrativeDetails (result : GeoResult) : AdminDetails :=
  result.address_components.foldl
    (fun details component =>
      let types := component.types
      if types.contains "locality" || types.contains "sublocality" then
        { details with village := some component.long_name }
      else if types.contains "administrative_area_level_3" then
        { details with taluka := some component.long_name }
      else if types.contains "administrative_area_level_2" then
        { details with district := some component.long_name }
      else if types.contains "administrative_area_level_1" then
        { details with state := some component.long_name }
      else if types.contains "country" then
        { details with country := some component.long_name }
      else if types.contains "postal_code" then
        { details with pincode := some component.long_name }
      else details)
    emptyAdminDetails

/-- The payload of a successful geocode (the object the source builds with
`success: true`; `confidence` is the winning relevance score, `geocodedAt`
the call time). -/
structure GeocodeSuccess where
  villageName : String
  coordinates : LatLng
  formattedAddress : String
  placeId : String
  administrative : AdminDetails
  bounds : Option (LatLng × LatLng)
  locationType : String
  confidence : ℕ
  geocodedAt : ℚ
deriving DecidableEq, Repr

/-- The outcome of `geocodeVillage`: the source's `success: true` object or
one of its three `success: false` objects, distinguished by their `error`
strings (`'Village not found'`, `'Village not in Pune ZP'`,
`'Geocoding service error'`). -/
inductive GeocodeOutcome where
  | success (info : GeocodeSuccess)
  | notFound (message : String)
  | outOfBoundary (location : LatLng) (address : String) (message : String)
  | serviceError (message : String)
deriving DecidableEq, Repr

/-- `true` exactly on the `serviceError` outcome. -/
def GeocodeOutcome.isServiceError : GeocodeOutcome → Bool
  | .serviceError _ => true
  | _ => false

/-- `true` exactly on the `success` outcome. -/
def GeocodeOutcome.isSuccess : GeocodeOutcome → Bool
  | .success _ => true
  | _ => false

/-- The localized `'Village not found'` message. -/
def notFoundMessage : Lang → String
  | .mr => "हे गाव सापडले नाही. कृपया योग्य गाव नाव लिहा."
  | .en => "Village not found. Please provide a valid village name."

/-- The localized out-of-boundary message. -/
def boundaryMessage : Lang → String
  | .mr => "हे गाव पुणे जिल्हा परिषदेच्या हद्दीत नाही. कृपया पुणे जिल्ह्यातील गाव नाव द्या."
  | .en => "This village is not within Pune Zilla Panchayat boundaries. Please provide a village name from Pune district."

/-- The localized geocoding-service-error message. -/
def serviceErrorMessage : Lang → String
  | .mr => "गाव शोधण्यात तांत्रिक समस्या आली. कृपया पुन्हा प्रयत्न करा."
  | .en => "Technical issue while searching village. Please try again."

/-- One document of the `geocoding` Firestore collection. -/
structure CacheEntry where
  villageName : String
  result : GeocodeOutcome
  cachedAt : ℚ
deriving DecidableEq, Repr

/-- The `geocoding` collection: documents keyed by the normalized village
name. -/
abbrev Cache := List (String × CacheEntry)

/-- The cache key: `villageName.toLowerCase().trim()`. -/
def cacheKeyOf (villageName : String) : String :=
  trimStr (toLowerStr villageName)

/-- `cacheGeocode`: `doc(cacheKey).set(...)` overwrites the document at the
key (modelled by dropping any entry at the key and appending the new one). -/
def cacheGeocode (cache : Cache) (now : ℚ) (villageName : String)
    (result : GeocodeOutcome) : Cache :=
  let cacheKey := cacheKeyOf villageName
  cache.filter (fun kv => kv.1 != cacheKey) ++
    [(cacheKey, { villageName := villageName, result := result, cachedAt := now })]

/-- `getCachedGeocode`: a hit younger than 24 hours returns the stored
outcome; an older hit is deleted (lazy eviction) and reported as a miss. -/
def getCachedGeocode (cache : Cache) (now : ℚ) (villageName : String) :
    Option GeocodeOutcome × Cache :=
  let cacheKey := cacheKeyOf villageName
  match cache.find? (fun kv => kv.1 == cacheKey) with
  | none => (none, cache)
  | some (_, entry) =>
    if now - entry.cachedAt < 24 then (some entry.result, cache)
    else (none, cache.filter (fun kv => kv.1 != cacheKey))

/-- The geocoding provider's answer to one query: a thrown error (caught and
swallowed by the source's inner `catch`), or the `results` array of a
response whose `status` is `'OK'` (a non-`'OK'` status is the same as an
empty `results` array to the source's guard). -/
abbrev ProviderResp := Except Unit (List GeoResult)

/-- The ordered query templates (`searchQueries`) of `geocodeVillage`. -/
def searchQueries (villageName : String) : List String :=
  [ villageName ++ ", Pune District, Maharashtra, India"
  , villageName ++ ", Pune, Maharashtra, India"
  , villageName ++ " village, Pune District, Maharashtra"
  , villageName ++ ", Maharashtra, India" ]

/-- One iteration of `geocodeVillage`'s template loop: keep the first result
of an `'OK'` response when its relevance score strictly beats the best so
far (the accumulator starts at `(null, 0)`). -/
def scanStep (searchTerm : String) (acc : Option GeoResult × ℕ)
    (resp : ProviderResp) : Option GeoResult × ℕ :=
  match resp with
  | .error _ => acc
  | .ok [] => acc
  | .ok (result :: _) =>
    let score := calculateRelevanceScore result searchTerm
    if acc.2 < score then (some result, score) else acc

/-- The whole template loop of `geocodeVillage`: `(bestResult, highestScore)`
after scoring every template's response. -/
def scanBest (searchTerm : String) (resps : List ProviderResp) :
    Option GeoResult × ℕ :=
  resps.foldl (scanStep searchTerm) (none, 0)

/-- `geocodeVillage` from the geocoding service, over a provider oracle.
Returns the outcome, the geocoding cache afterwards, and whether any
provider lookup was issued (false exactly on a fresh cache hit). -/
def geocodeVillage (cache : Cache) (provider : String → ProviderResp)
    (now : ℚ) (villageName : String) (language : Lang) :
    GeocodeOutcome × Cache × Bool :=
  match getCachedGeocode cache now villageName with
  | (some cachedResult, cache1) => (cachedResult, cache1, false)
  | (none, cache1) =>
    let responses := (searchQueries villageName).map provider
    match scanBest villageName responses with
    | (none, _) => (.notFound (notFoundMessage language), cache1, true)
    | (some bestResult, highestScore) =>
      let location := bestResult.geometry.location
      if isLocationInPuneZP location then
        let geocodeResult : GeocodeOutcome := .success
          { villageName := villageName
          , coordinates := location
          , formattedAddress := bestResult.formatted_address
          , placeId := bestResult.place_id
          , administrative := extractAdministrativeDetails bestResult
          , bounds := bestResult.geometry.bounds
          , locationType := bestResult.geometry.location_type
          , confidence := highestScore
          , geocodedAt := now }
        (geocodeResult, cacheGeocode cache1 now villageName geocodeResult, true)
      else
        (.outOfBoundary location bestResult.formatted_address
          (boundaryMessage language), cache1, true)

/-! ### Message splitting (whatsapp service part of `knowledgeBaseService.js`) -/

/-- `message.split('\n\n')` over a character list (non-overlapping,
leftmost-first, like the JavaScript string splitter). -/
def splitParagraphsAux : List Char → List Char → List (List Char)
  | [], acc => [acc.reverse]
  | '\n' :: '\n' :: rest, acc => acc.reverse :: splitParagraphsAux rest []
  | c :: rest, acc => splitParagraphsAux rest (c :: acc)

/-- `message.split('\n\n')`. -/
def splitParagraphs (l : List Char) : List (List Char) :=
  splitParagraphsAux l []

/-- `sentence.split(' ')` over a character list. -/
def splitWordsAux : List Char → List Char → List (List Char)
  | [], acc => [acc.reverse]
  | ' ' :: rest, acc => acc.reverse :: splitWordsAux rest []
  | c :: rest, acc => splitWordsAux rest (c :: acc)

/-- `sentence.split(' ')`. -/
def splitWords (l : List Char) : List (List Char) :=
  splitWordsAux l []

/-- The sentence-final punctuation of the source's lookbehind class
`[.!?।]`. -/
def sentenceDelim (c : Char) : Bool :=
  c == '.' || c == '!' || c == '?' || c == '।'

/-- Dropping a prefix does not lengthen a list (for the termination of
`splitSentencesAux`). -/
theorem length_dropWhile_le_length (p : Char → Bool) (l : List Char) :
    (l.dropWhile p).length ≤ l.length :=
  (List.dropWhile_suffix p).length_le

/-- `paragraph.split(/(?<=[.!?।])\s+/)` over a character list: a maximal
whitespace run immediately after sentence-final punctuation separates
sentences and is dropped. -/
def splitSentencesAux : List Char → List Char → List (List Char)
  | [], acc => [acc.reverse]
  | c :: rest, acc =>
    if isWs c && (match acc with | d :: _ => sentenceDelim d | [] => false) then
      acc.reverse :: splitSentencesAux (rest.dropWhile isWs) []
    else
      splitSentencesAux rest (c :: acc)
termination_by l _ => l.length
decreasing_by
  · simpa using Nat.lt_succ_of_le (length_dropWhile_le_length isWs rest)
  · simp

/-- `paragraph.split(/(?<=[.!?।])\s+/)`. -/
def splitSentences (l : List Char) : List (List Char) :=
  splitSentencesAux l []

/-- `MAX_LENGTH` of `splitLongMessage` ("Setting below 4096 for safety"). -/
def MAX_LENGTH : ℕ := 4000

/-- The body of `splitLongMessage`'s innermost loop (`for (const word of
words)`), threading `(parts, currentPart)`. -/
def wordStep (st : List (List Char) × List Char) (word : List Char) :
    List (List Char) × List Char :=
  let (parts, currentPart) := st
  if MAX_LENGTH < currentPart.length + word.length + 1 then
    if 0 < currentPart.length then (parts ++ [trimChars currentPart], word)
    else (parts ++ [word.take MAX_LENGTH], word.drop MAX_LENGTH)
  else
    (parts, currentPart ++ (if 0 < currentPart.length then ' ' :: word else word))

/-- The body of `splitLongMessage`'s sentence loop. -/
def sentenceStep (st : List (List Char) × List Char) (sentence : List Char) :
    List (List Char) × List Char :=
  let (parts, currentPart) := st
  if MAX_LENGTH < currentPart.length + sentence.length + 1 then
    let flushed :=
      if 0 < currentPart.length then (parts ++ [trimChars currentPart], ([] : List Char))
      else (parts, currentPart)
    if MAX_LENGTH < sentence.length then
      (splitWords sentence).foldl wordStep flushed
    else
      (flushed.1, sentence)
  else
    (parts, currentPart ++ (if 0 < currentPart.length then ' ' :: sentence else sentence))

/-- The body of `splitLongMessage`'s paragraph loop. -/
def paragraphStep (st : List (List Char) × List Char) (paragraph : List Char) :
    List (List Char) × List Char :=
  let (parts, currentPart) := st
  if MAX_LENGTH < currentPart.length + paragraph.length + 2 then
    let flushed :=
      if 0 < currentPart.length then (parts ++ [trimChars currentPart], ([] : List Char))
      else (parts, currentPart)
    if MAX_LENGTH < paragraph.length then
      (splitSentences paragraph).foldl sentenceStep flushed
    else
      (flushed.1, paragraph)
  else
    (parts, currentPart ++ (if 0 < currentPart.length then '\n' :: '\n' :: paragraph else paragraph))

/-- The `\n\n📝 (i/n)` part indicator appended to each part of a multi-part
message. -/
def partIndicator (index total : ℕ) : List Char :=
  ('\n' :: '\n' :: "📝 (".data) ++ (toString index).data ++ ('/' :: (toString total).data) ++ [')']

/-- `splitLongMessage` from the whatsapp service (JavaScript string indices
are modelled as character positions). -/
def splitLongMessage (message : String) : List String :=
  let chars := message.data
  if chars.length ≤ MAX_LENGTH then [message]
  else
    let looped := (splitParagraphs chars).foldl paragraphStep ([], [])
    let parts :=
      if 0 < looped.2.length then looped.1 ++ [trimChars looped.2] else looped.1
    if 1 < parts.length then
      parts.enum.map (fun p => String.mk (p.2 ++ partIndicator (p.1 + 1) parts.length))
    else
      parts.map String.mk

/-! ### State manager (state manager part of `knowledgeBaseService.js`) -/

/-- One entry of the source's `REGISTRATION_STATES` table. -/
structure RegState where
  id : String
  name : String
  nextStates : List String
  requiredData : List String
deriving DecidableEq, Repr

/-- `REGISTRATION_STATES`: the simplified registration states (only Name and
Village). -/
def REGISTRATION_STATES : List RegState :=
  [ { id := "initial", name := "Initial Contact"
    , nextStates := ["awaiting_name"], requiredData := [] }
  , { id := "awaiting_name", name := "Awaiting Name"
    , nextStates := ["awaiting_village"], requiredData := ["userProvidedName"] }
  , { id := "awaiting_village", name := "Awaiting Village"
    , nextStates := ["completed"], requiredData := ["village", "coordinates"] }
  , { id := "completed", name := "Registration Complete"
    , nextStates := [], requiredData := [] } ]

/-- `REGISTRATION_STATES[stateId.toUpperCase()]` (the table keyed by the
state id). -/
def lookupRegState (stateId : String) : Option RegState :=
  REGISTRATION_STATES.find? (fun s => s.id == stateId)

/-- `REGISTRATION_STATES[stateId.toUpperCase()]?.name || stateId`. -/
def stateNameOf (stateId : String) : String :=
  ((lookupRegState stateId).map (fun s => s.name)).getD stateId

/-- The classifier's structured judgment (`analyze_registration_state`
function-call arguments). -/
structure StateAnalysis where
  current_state : String
  user_intent : String
  has_required_data : Bool
  next_state : String
  confidence : ℚ
  reason : String
deriving DecidableEq, Repr

/-- The extraction payload (`extract_user_name` / `extract_village_info`
arguments, plus the geocoding fields `processRegistrationWithFunctions`
attaches for a validated village). -/
structure ExtractedData where
  full_name : Option String
  village_name : Option String
  needs_geocoding : Option Bool
  confidence : ℚ
  validated_village : Option String
  coordinates : Option LatLng
  taluka : Option String
  geocoding : Option GeocodeSuccess
deriving DecidableEq, Repr

/-- The object `processRegistrationWithFunctions` returns to the
orchestrator. -/
structure FunctionResults where
  stateAnalysis : Option StateAnalysis
  extractedData : Option ExtractedData
  shouldTransition : Bool
  nextState : String
  confidence : ℚ
  geocodingError : Option String
deriving DecidableEq, Repr

/-- One document of a citizen's `states` subcollection, with the fields the
source reads and writes (`createStateRecord`, `updateStateWithFunctionResults`,
`completeStateTransition`). `id` is the Firestore document id. -/
structure StateRecord where
  id : ℕ
  stateId : String
  stateName : String
  isActive : Bool
  attempts : ℕ
  functionCallResults : List FunctionResults
  lastFunctionCallResult : Option FunctionResults
  extractedData : Option ExtractedData
  isCompleted : Bool
  finalConfidence : Option ℚ
deriving DecidableEq, Repr

/-- The fresh state document `createStateRecord` writes (and the
`nextStateData` document of `completeStateTransition`): active, zero
attempts, empty function-call history. -/
def newStateRecord (id : ℕ) (stateId : String) : StateRecord :=
  { id := id, stateId := stateId, stateName := stateNameOf stateId
  , isActive := true, attempts := 0
  , functionCallResults := [], lastFunctionCallResult := none
  , extractedData := none, isCompleted := false, finalConfidence := none }

/-- `getCurrentState`: the most recently created document with
`isActive == true` (the list is kept in creation order, so the last active
entry). -/
def findCurrentState (states : List StateRecord) : Option StateRecord :=
  (states.filter (fun s => s.isActive)).getLast?

/-- `updateStateWithFunctionResults`: increments `attempts`, appends the
function-call result to the record's history and stores it as the last
result. -/
def updateStateWithFunctionResults (states : List StateRecord)
    (currentStateId : ℕ) (functionResults : FunctionResults) : List StateRecord :=
  states.map (fun s =>
    if s.id == currentStateId then
      { s with
          attempts := s.attempts + 1,
          functionCallResults := s.functionCallResults ++ [functionResults],
          lastFunctionCallResult := some functionResults }
    else s)

/-- `completeStateTransition`: one Firestore batch that flips the current
record to inactive (stamping the extracted-data snapshot; the source's
`extractedData.confidence || null` maps a `0` confidence to `null`) and,
when `nextStateId` is given, creates the new active record.  `nextId` is
the fresh-document-id supply; the batch commit is the single application of
this function. -/
def completeStateTransition (states : List StateRecord) (nextId : ℕ)
    (currentStateId : ℕ) (extractedData : Option ExtractedData)
    (nextStateId : Option String) : List StateRecord × ℕ :=
  let deactivated := states.map (fun s =>
    if s.id == currentStateId then
      { s with
          isActive := false,
          extractedData := extractedData,
          isCompleted := true,
          finalConfidence :=
            extractedData.bind (fun e => if e.confidence == 0 then none else some e.confidence) }
    else s)
  match nextStateId with
  | some nid => (deactivated ++ [newStateRecord nextId nid], nextId + 1)
  | none => (deactivated, nextId)

/-! ### Citizen records (`citizenService.js`) -/

/-- The `geocodingInfo` object `updateCitizenDataFromFunctions` stores on the
citizen document. -/
structure GeocodingInfo where
  formattedAddress : String
  placeId : String
  administrative : AdminDetails
  confidence : ℕ
  geocodedAt : ℚ
deriving DecidableEq, Repr

/-- A citizen document, with the registration fields the orchestrator reads
and writes. -/
structure Citizen where
  whatsappDisplayName : Option String
  userProvidedName : Option String
  village : Option String
  coordinates : Option LatLng
  latitude : Option ℚ
  longitude : Option ℚ
  taluka : Option String
  district : String
  geocodingInfo : Option GeocodingInfo
  isRegistered : Bool
deriving DecidableEq, Repr

/-- The freshly created citizen document of `getOrCreateCitizen` (the
registration-relevant fields). -/
def newCitizen (displayName : Option String) : Citizen :=
  { whatsappDisplayName := displayName, userProvidedName := none
  , village := none, coordinates := none, latitude := none, longitude := none
  , taluka := none, district := "Pune", geocodingInfo := none
  , isRegistered := false }

/-- `updateCitizenDataFromFunctions`: merges the extracted fields for the
given state into the citizen document. -/
def updateCitizenDataFromFunctions (citizen : Citizen) (stateId : String)
    (extractedData : ExtractedData) : Citizen :=
  if stateId == "awaiting_name" then
    match extractedData.full_name with
    | some n => { citizen with userProvidedName := some n }
    | none => citizen
  else if stateId == "awaiting_village" then
    match extractedData.village_name with
    | some vn =>
      let c1 := { citizen with village := some (extractedData.validated_village.getD vn) }
      let c2 :=
        match extractedData.coordinates with
        | some co => { c1 with coordinates := some co, latitude := some co.lat, longitude := some co.lng }
        | none => c1
      let c3 :=
        match extractedData.taluka with
        | some t => { c2 with taluka := some t }
        | none => c2
      match extractedData.geocoding with
      | some g =>
        { c3 with
            geocodingInfo := some
              { formattedAddress := g.formattedAddress, placeId := g.placeId,
                administrative := g.administrative, confidence := g.confidence,
                geocodedAt := g.geocodedAt } }
      | none => c3
    | none => citizen
  else citizen

/-! ### Registration pipeline (`openaiService.js`) -/

/-- `extractRegistrationData`'s dispatch on the current state: the LLM's
extraction output (`raw`, an oracle) is used for the two collecting states
and the `default:` arm returns `null`. -/
def extractRegistrationDataDispatch (currentState : String)
    (raw : Option ExtractedData) : Option ExtractedData :=
  if currentState == "awaiting_name" || currentState == "awaiting_village" then raw
  else none

/-- The common return object of `processRegistrationWithFunctions` (fields
read off `stateAnalysis` with JavaScript `||` defaults). -/
def mkFunctionResults (sa : StateAnalysis) (extractedData : Option ExtractedData)
    (currentState : String) : FunctionResults :=
  { stateAnalysis := some sa
  , extractedData := extractedData
  , shouldTransition := sa.has_required_data
  , nextState := if sa.next_state == "" then currentState else sa.next_state
  , confidence := sa.confidence
  , geocodingError := none }

/-- `processRegistrationWithFunctions` from `openaiService.js`, over the two
LLM oracles (`stateAnalysis`: the classifier's tool-call arguments, `null`
when the model returned no tool call; `rawExtraction`: the extractor's
arguments for the current state's function) and the geocoding provider.
Returns the function results together with the geocoding cache
afterwards. -/
def processRegistrationWithFunctions (currentState : String) (language : Lang)
    (stateAnalysis : Option StateAnalysis) (rawExtraction : Option ExtractedData)
    (cache : Cache) (provider : String → ProviderResp) (now : ℚ) :
    FunctionResults × Cache :=
  match stateAnalysis with
  | none =>
    ({ stateAnalysis := none, extractedData := none, shouldTransition := false
     , nextState := currentState, confidence := 0, geocodingError := none }, cache)
  | some sa =>
    if sa.has_required_data then
      let extracted := extractRegistrationDataDispatch currentState rawExtraction
      match extracted with
      | some ed =>
        match (if currentState == "awaiting_village" then ed.village_name else none) with
        | some vn =>
          let geo := geocodeVillage cache provider now vn language
          match geo.1 with
          | .success info =>
            let ed2 :=
              { ed with
                  geocoding := some info,
                  coordinates := some info.coordinates,
                  validated_village := some (info.administrative.village.getD vn),
                  taluka := info.administrative.taluka,
                  confidence := min ed.confidence (Rat.divInt info.confidence 100) }
            (mkFunctionResults sa (some ed2) currentState, geo.2.1)
          | .notFound m =>
            ({ stateAnalysis := some sa, extractedData := none, shouldTransition := false
             , nextState := currentState, confidence := 0, geocodingError := some m }, geo.2.1)
          | .outOfBoundary _ _ m =>
            ({ stateAnalysis := some sa, extractedData := none, shouldTransition := false
             , nextState := currentState, confidence := 0, geocodingError := some m }, geo.2.1)
          | .serviceError m =>
            ({ stateAnalysis := some sa, extractedData := none, shouldTransition := false
             , nextState := currentState, confidence := 0, geocodingError := some m }, geo.2.1)
        | none => (mkFunctionResults sa extracted currentState, cache)
      | none => (mkFunctionResults sa none currentState, cache)
    else
      (mkFunctionResults sa none currentState, cache)

/-! ### Registration orchestrator (`citizenService.js`) -/

/-- `getWelcomeMessage` (initial-state reply). -/
def getWelcomeMessage (language : Lang) (whatsappName : Option String) : String :=
  match language with
  | .mr =>
    "🙏 नमस्कार " ++ (match whatsappName with
      | some n => n ++ " जी"
      | none => "मित्रा") ++ "!\n\n" ++
    "मी पुणे जिल्हा परिषदेचा आधिकारिक सहाय्यक आहे. आपण येथे आल्याबद्दल मला खूप आनंद झाला! 😊\n\n" ++
    "आपली सेवा करण्यापूर्वी, मला फक्त 2 माहिती हवी:\n1️⃣ आपले पूर्ण नाव\n2️⃣ आपले गाव (पुणे जिल्ह्यातील)\n\n" ++
    (match whatsappName with
      | some n => "WhatsApp वर आपले नाव \"" ++ n ++ "\" दिसते आहे, पण पुष्टीसाठी"
      | none => "कृपया") ++
    " आपले पूर्ण नाव सांगाल का?\n\n(उदाहरण: राम शंकर पाटील)"
  | .en =>
    "🙏 Hello " ++ (match whatsappName with
      | some n => n ++ " Sir/Madam"
      | none => "Dear Friend") ++ "!\n\n" ++
    "I am the official assistant of Pune Zilla Panchayat. I'm delighted that you've reached out to us! 😊\n\n" ++
    "Before I can assist you, I need just 2 pieces of information:\n1️⃣ Your full name\n2️⃣ Your village (within Pune district)\n\n" ++
    (match whatsappName with
      | some n => "I can see your name as \"" ++ n ++ "\" on WhatsApp, but for confirmation"
      | none => "Please") ++
    " could you please tell me your full name?\n\n(Example: Ram Shankar Patil)"

/-- `getRegistrationCompleteMessage` (completion reply with the confirmed
name and village). -/
def getRegistrationCompleteMessage (language : Lang) (name village : String) : String :=
  match language with
  | .mr =>
    "🎉 अभिनंदन " ++ name ++ " जी! आपली नोंदणी यशस्वीरित्या पूर्ण झाली आहे.\n\n" ++
    "📍 नोंदणीकृत माहिती:\n• नाव: " ++ name ++ "\n• गाव: " ++ village ++ "\n• जिल्हा: पुणे\n\n" ++
    "आता आपण पुणे जिल्हा परिषदेच्या कोणत्याही सेवा, योजना किंवा माहितीबद्दल मला प्रश्न विचारू शकता. मी आपली सेवा करण्यास तत्पर आहे! 😊\n\nकाय मदत करू?"
  | .en =>
    "🎉 Congratulations " ++ name ++ "! Your registration has been completed successfully.\n\n" ++
    "📍 Registered Information:\n• Name: " ++ name ++ "\n• Village: " ++ village ++ "\n• District: Pune\n\n" ++
    "Now you can ask me any questions about Pune Zilla Panchayat services, schemes, or information. I'm here to serve you! 😊\n\nHow can I help you?"

/-- `getDefaultPromptForState` (with the `prompts[language]?.[stateId] ||
prompts.en[stateId] || ...` JavaScript fallbacks). -/
def getDefaultPromptForState (stateId : String) (language : Lang) : String :=
  let mrPrompt : String → Option String := fun s =>
    if s == "awaiting_name" then some "कृपया आपले पूर्ण नाव सांगा."
    else if s == "awaiting_village" then some "कृपया आपले गाव सांगा (पुणे जिल्ह्यातील)."
    else none
  let enPrompt : String → Option String := fun s =>
    if s == "awaiting_name" then some "Please tell me your full name."
    else if s == "awaiting_village" then some "Please tell me your village name (within Pune district)."
    else none
  (((if language == Lang.mr then mrPrompt stateId else enPrompt stateId)).orElse
    (fun _ => enPrompt stateId)).getD "Please provide the required information."

/-- `getRetryPromptForState`. -/
def getRetryPromptForState (stateId : String) (language : Lang) : String :=
  let mrPrompt : String → Option String := fun s =>
    if s == "awaiting_name" then some "क्षमस्व, कृपया आपले स्पष्ट आणि पूर्ण नाव लिहा."
    else if s == "awaiting_village" then some "क्षमस्व, कृपया पुणे जिल्ह्यातील योग्य गाव नाव लिहा."
    else none
  let enPrompt : String → Option String := fun s =>
    if s == "awaiting_name" then some "Sorry, please write your clear and full name."
    else if s == "awaiting_village" then some "Sorry, please provide a valid village name from Pune district."
    else none
  (((if language == Lang.mr then mrPrompt stateId else enPrompt stateId)).orElse
    (fun _ => enPrompt stateId)).getD "Please try again with clear information."

/-- The `0.7` acceptance threshold of `functionResults.confidence > 0.7`
(written with `Rat.divInt` so that concrete runs evaluate;
`confidenceThreshold_value` checks the decimal). -/
def confidenceThreshold : ℚ := Rat.divInt 7 10

/-- The threshold is exactly the source's `0.7`. -/
theorem confidenceThreshold_value : confidenceThreshold = 0.7 := by
  norm_num [confidenceThreshold, Rat.divInt_eq_div]

/-- `Rat.divInt info.confidence 100` is exactly the source's
`geocodeResult.confidence / 100`. -/
theorem geocode_confidence_scaling (n : ℕ) : Rat.divInt n 100 = (n : ℚ) / 100 := by
  rw [Rat.divInt_eq_div]
  norm_num

/-- The per-citizen persistent data the orchestrator touches: the citizen
document, the `states` subcollection, the `functionCalls` subcollection
(audit), and the fresh-document-id supply. -/
structure World where
  citizen : Citizen
  states : List StateRecord
  functionCalls : List (String × FunctionResults)
  nextId : ℕ
deriving DecidableEq, Repr

/-- The value `processRegistrationWithFunctionCalling` returns to the
webhook controller. -/
structure RegResponse where
  shouldContinue : Bool
  response : String
  functionCallResults : Option FunctionResults
deriving DecidableEq, Repr

/-- `processRegistrationWithFunctionCalling` from `citizenService.js`, over
the already-computed `functionResults` (the return value of
`processRegistrationWithFunctions`) and the contextual-response oracle
(`contextualResponse` models `generateContextualResponseWithFunctions`,
which may return `null`).  The citizen snapshot the source reads for the
completion message is `w.citizen` as passed in (it is not re-read after the
merge, faithfully to the source). -/
def processRegistrationWithFunctionCalling (w : World) (language : Lang)
    (functionResults : FunctionResults) (contextualResponse : Option String) :
    World × RegResponse :=
  let createdPair :=
    match findCurrentState w.states with
    | some cs => (w, cs)
    | none =>
      let ns := newStateRecord w.nextId "awaiting_name"
      ({ w with states := w.states ++ [ns], nextId := w.nextId + 1 }, ns)
  let w0 := createdPair.1
  let currentState := createdPair.2
  if currentState.stateId == "initial" then
    let welcomeResponse := getWelcomeMessage language w.citizen.whatsappDisplayName
    let t := completeStateTransition w0.states w0.nextId currentState.id none (some "awaiting_name")
    ({ w0 with states := t.1, nextId := t.2 },
     { shouldContinue := false, response := welcomeResponse, functionCallResults := none })
  else
    match functionResults.geocodingError with
    | some errorMessage =>
      let states2 := updateStateWithFunctionResults w0.states currentState.id functionResults
      ({ w0 with states := states2 },
       { shouldContinue := false, response := errorMessage
       , functionCallResults := some functionResults })
    | none =>
      let states2 := updateStateWithFunctionResults w0.states currentState.id functionResults
      let w2 := { w0 with
          states := states2,
          functionCalls := w0.functionCalls ++ [(currentState.stateId, functionResults)] }
      match functionResults.extractedData with
      | some ed =>
        if functionResults.shouldTransition && decide (confidenceThreshold < functionResults.confidence) then
          let citizen2 := updateCitizenDataFromFunctions w2.citizen currentState.stateId ed
          if functionResults.nextState == "completed" then
            let citizen3 := { citizen2 with isRegistered := true }
            let t := completeStateTransition w2.states w2.nextId currentState.id none (some "completed")
            let completionMessage := getRegistrationCompleteMessage language
              ((w.citizen.userProvidedName.orElse (fun _ => w.citizen.whatsappDisplayName)).getD "undefined")
              ((ed.validated_village.orElse (fun _ => ed.village_name)).getD "undefined")
            ({ w2 with citizen := citizen3, states := t.1, nextId := t.2 },
             { shouldContinue := true, response := completionMessage
             , functionCallResults := some functionResults })
          else
            let t := completeStateTransition w2.states w2.nextId currentState.id (some ed)
              (some functionResults.nextState)
            ({ w2 with citizen := citizen2, states := t.1, nextId := t.2 },
             { shouldContinue := false
             , response := contextualResponse.getD
                 (getDefaultPromptForState functionResults.nextState language)
             , functionCallResults := some functionResults })
        else
          (w2,
           { shouldContinue := false
           , response := contextualResponse.getD
               (getRetryPromptForState currentState.stateId language)
           , functionCallResults := some functionResults })
      | none =>
        (w2,
         { shouldContinue := false
         , response := contextualResponse.getD
             (getRetryPromptForState currentState.stateId language)
         , functionCallResults := some functionResults })

/-- `completeRegistration` in isolation: marks the citizen registered and
commits the `completed` state (with the empty extracted-data object). -/
def completeRegistration (w : World) (currentStateId : ℕ) : World :=
  let citizen2 := { w.citizen with isRegistered := true }
  let t := completeStateTransition w.states w.nextId currentStateId none (some "completed")
  { w with citizen := citizen2, states := t.1, nextId := t.2 }

/-! ### Lemmas for `splitLongMessage` on a single long word (claim C10) -/

theorem splitParagraphsAux_replicate (n : ℕ) (acc : List Char) :
    splitParagraphsAux (List.replicate n 'a') acc = [acc.reverse ++ List.replicate n 'a'] := by
  induction n generalizing acc with
  | zero => simp [splitParagraphsAux]
  | succ n ih =>
    rw [List.replicate_succ,
      show splitParagraphsAux ('a' :: List.replicate n 'a') acc
          = splitParagraphsAux (List.replicate n 'a') ('a' :: acc) from rfl,
      ih]
    simp

theorem splitWordsAux_replicate (n : ℕ) (acc : List Char) :
    splitWordsAux (List.replicate n 'a') acc = [acc.reverse ++ List.replicate n 'a'] := by
  induction n generalizing acc with
  | zero => simp [splitWordsAux]
  | succ n ih =>
    rw [List.replicate_succ,
      show splitWordsAux ('a' :: List.replicate n 'a') acc
          = splitWordsAux (List.replicate n 'a') ('a' :: acc) from rfl,
      ih]
    simp

theorem splitSentencesAux_replicate (n : ℕ) (acc : List Char) :
    splitSentencesAux (List.replicate n 'a') acc = [acc.reverse ++ List.replicate n 'a'] := by
  induction n generalizing acc with
  | zero => simp [splitSentencesAux]
  | succ n ih =>
    rw [List.replicate_succ]
    rw [splitSentencesAux.eq_def]
    simp only [isWs]
    norm_num
    rw [ih]
    simp

theorem dropWhile_isWs_replicate (n : ℕ) :
    List.dropWhile isWs (List.replicate n 'a') = List.replicate n 'a' := by
  cases n with
  | zero => simp
  | succ n => rw [List.replicate_succ]; simp [List.dropWhile_cons, isWs]

theorem trimChars_replicate (n : ℕ) :
    trimChars (List.replicate n 'a') = List.replicate n 'a' := by
  unfold trimChars
  rw [dropWhile_isWs_replicate, List.reverse_replicate, dropWhile_isWs_replicate,
    List.reverse_replicate]

theorem wordStep_replicate (n : ℕ) (h : MAX_LENGTH < n) :
    wordStep ([], []) (List.replicate n 'a') =
      ([List.replicate MAX_LENGTH 'a'], List.replicate (n - MAX_LENGTH) 'a') := by
  simp only [wordStep, List.length_nil, List.length_replicate]
  split_ifs with h1 h2
  all_goals first
    | omega
    | rw [List.take_replicate, List.drop_replicate, List.nil_append,
        Nat.min_eq_left (Nat.le_of_lt h)]

theorem sentenceStep_replicate (n : ℕ) (h : MAX_LENGTH < n) :
    sentenceStep ([], []) (List.replicate n 'a') =
      ([List.replicate MAX_LENGTH 'a'], List.replicate (n - MAX_LENGTH) 'a') := by
  simp only [sentenceStep, List.length_nil, List.length_replicate]
  split_ifs with h1 h2
  all_goals first
    | omega
    | (unfold splitWords
       rw [splitWordsAux_replicate]
       simp only [List.reverse_nil, List.nil_append, List.foldl_cons, List.foldl_nil]
       exact wordStep_replicate n h)

theorem paragraphStep_replicate (n : ℕ) (h : MAX_LENGTH < n) :
    paragraphStep ([], []) (List.replicate n 'a') =
      ([List.replicate MAX_LENGTH 'a'], List.replicate (n - MAX_LENGTH) 'a') := by
  simp only [paragraphStep, List.length_nil, List.length_replicate]
  split_ifs with h1 h2
  all_goals first
    | omega
    | (unfold splitSentences
       rw [splitSentencesAux_replicate]
       simp only [List.reverse_nil, List.nil_append, List.foldl_cons, List.foldl_nil]
       exact sentenceStep_replicate n h)

theorem splitLongMessage_replicate (n : ℕ) (h : MAX_LENGTH < n) :
    splitLongMessage (String.mk (List.replicate n 'a')) =
      [String.mk (List.replicate MAX_LENGTH 'a' ++ partIndicator 1 2),
       String.mk (List.replicate (n - MAX_LENGTH) 'a' ++ partIndicator 2 2)] := by
  simp only [splitLongMessage, List.length_replicate]
  rw [if_neg (by omega)]
  unfold splitParagraphs
  rw [splitParagraphsAux_replicate]
  simp only [List.reverse_nil, List.nil_append, List.foldl_cons, List.foldl_nil]
  rw [paragraphStep_replicate n h]
  rw [List.length_replicate]
  dsimp only
  rw [if_pos (show (0:ℕ) < n - MAX_LENGTH from by omega)]
  rw [trimChars_replicate]
  simp only [List.singleton_append, List.length_cons, List.length_nil]
  rw [if_pos (by norm_num)]
  simp only [List.enum, List.enumFrom, List.map_cons, List.map_nil]

/-- C10: a message that is a single 8097-character word is split into a
first part of 4000 characters and a second part whose length with the part
indicator is 4106 — over the 4096-character WhatsApp limit the function's
own comments promise, because the remainder after `substring(0, 4000)` is
never re-split. -/
theorem C10_splitLongMessage_code_bug :
    (splitLongMessage (String.mk (List.replicate 8097 'a'))).map String.length = [4009, 4106] := by
  have h1 : (partIndicator 1 2).length = 9 := by decide
  have h2 : (partIndicator 2 2).length = 9 := by decide
  rw [splitLongMessage_replicate 8097 (by norm_num [MAX_LENGTH])]
  simp only [List.map_cons, List.map_nil, String.length, List.length_append,
    List.length_replicate, h1, h2]
  norm_num [MAX_LENGTH]

/-! ### Claim C4: village boundary enforcement -/

/-- C4: when the cache misses and the best-scoring candidate's coordinates
lie outside the Pune ZP bounding rectangle, `geocodeVillage` returns the
out-of-boundary failure (never a success) with the localized message, and
the cache is left exactly as the lookup left it — the boundary failure is
not written to the cache. -/
theorem C4_boundary_enforced (cache : Cache) (provider : String → ProviderResp)
    (now : ℚ) (villageName : String) (language : Lang) (c : Cache) (r : GeoResult) (s : ℕ)
    (hmiss : getCachedGeocode cache now villageName = (none, c))
    (hbest : scanBest villageName ((searchQueries villageName).map provider) = (some r, s))
    (hout : isLocationInPuneZP r.geometry.location = false) :
    geocodeVillage cache provider now villageName language =
      (GeocodeOutcome.outOfBoundary r.geometry.location r.formatted_address
        (boundaryMessage language), c, true) := by
  unfold geocodeVillage
  rw [hmiss]
  simp only [hbest, hout]
  simp

/-- A geocoding result for Mumbai: inside Maharashtra, outside the Pune ZP
rectangle (longitude `72.8777 < 73.5`). -/
def c4Mumbai : GeoResult :=
  { formatted_address := "Mumbai, Maharashtra, India"
  , address_components := [⟨"Mumbai", "Mumbai", ["locality"]⟩]
  , geometry := ⟨⟨Rat.divInt 19076 1000, Rat.divInt 728777 10000⟩, "APPROXIMATE", none⟩
  , place_id := "mum1" }

/-- A provider that answers every query template with the Mumbai result. -/
def c4Provider : String → ProviderResp := fun _ => .ok [c4Mumbai]


/-- C4 witness: `geocodeVillage` on the fresh cache with the Mumbai
provider returns the out-of-boundary failure and leaves the cache empty. -/
theorem C4_boundary_witness :
    geocodeVillage [] c4Provider 0 "Mumbai" Lang.en =
      (GeocodeOutcome.outOfBoundary c4Mumbai.geometry.location c4Mumbai.formatted_address
        (boundaryMessage Lang.en), [], true) :=
  C4_boundary_enforced [] c4Provider 0 "Mumbai" Lang.en [] c4Mumbai 130
    (by decide) (by decide) (by decide)

/-! ### Claim C7: geocoding cache behaviour -/

/-- The freshly written cache entry is found at the normalized key. -/
theorem find?_cacheGeocode (c : Cache) (now : ℚ) (name : String) (r : GeocodeOutcome) :
    (cacheGeocode c now name r).find? (fun kv => kv.1 == cacheKeyOf name) =
      some (cacheKeyOf name, { villageName := name, result := r, cachedAt := now }) := by
  unfold cacheGeocode
  rw [List.find?_append]
  have h1 : (c.filter (fun kv => kv.1 != cacheKeyOf name)).find?
      (fun kv => kv.1 == cacheKeyOf name) = none := by
    rw [List.find?_eq_none]
    intro x hx
    have hmem := List.of_mem_filter hx
    simp only [bne_iff_ne, ne_eq] at hmem
    simp [hmem]
  rw [h1]
  simp [List.find?]

theorem geocode_success_idempotent (cache : Cache) (provider provider2 : String → ProviderResp)
    (now now2 : ℚ) (name name2 : String) (language language2 : Lang)
    (info : GeocodeSuccess) (c1 : Cache)
    (hfirst : geocodeVillage cache provider now name language =
      (GeocodeOutcome.success info, c1, true))
    (hkey : cacheKeyOf name2 = cacheKeyOf name)
    (hfresh : now2 - now < 24) :
    geocodeVillage c1 provider2 now2 name2 language2 =
      (GeocodeOutcome.success info, c1, false) := by
  have hinv : ∃ cx, c1 = cacheGeocode cx now name (GeocodeOutcome.success info) := by
    unfold geocodeVillage at hfirst
    split at hfirst
    · simp_all
    · simp only [] at hfirst
      split at hfirst
      · simp_all
      · split at hfirst
        · simp only [Prod.mk.injEq, GeocodeOutcome.success.injEq] at hfirst
          obtain ⟨hpay, hc1, -⟩ := hfirst
          exact ⟨_, by rw [← hc1, hpay]⟩
        · simp_all
  obtain ⟨cx, rfl⟩ := hinv
  have hget : getCachedGeocode (cacheGeocode cx now name (GeocodeOutcome.success info))
      now2 name2 = (some (GeocodeOutcome.success info),
        cacheGeocode cx now name (GeocodeOutcome.success info)) := by
    unfold getCachedGeocode
    simp only [hkey]
    rw [find?_cacheGeocode]
    simp only [if_pos hfresh]
  unfold geocodeVillage
  rw [hget]

theorem getCachedGeocode_stale_evicts (cache : Cache) (now : ℚ) (name key : String)
    (entry : CacheEntry)
    (hfind : cache.find? (fun kv => kv.1 == cacheKeyOf name) = some (key, entry))
    (hstale : ¬ (now - entry.cachedAt < 24)) :
    getCachedGeocode cache now name =
      (none, cache.filter (fun kv => kv.1 != cacheKeyOf name)) := by
  unfold getCachedGeocode
  simp only []
  rw [hfind]
  simp only [if_neg hstale]

/-- C7 amended: after a cache-miss call of `geocodeVillage` that returned a
success, any call within 24 hours whose name normalizes to the same cache
key (lower-cased, trimmed) returns the identical outcome from the cache
without issuing a provider lookup and leaves the cache unchanged; and a
cache entry at least 24 hours old is deleted on lookup instead of being
returned. -/
theorem C7_cache_amended :
    (∀ (cache : Cache) (provider provider2 : String → ProviderResp)
       (now now2 : ℚ) (name name2 : String) (language language2 : Lang)
       (info : GeocodeSuccess) (c1 : Cache),
       geocodeVillage cache provider now name language =
         (GeocodeOutcome.success info, c1, true) →
       cacheKeyOf name2 = cacheKeyOf name →
       now2 - now < 24 →
       geocodeVillage c1 provider2 now2 name2 language2 =
         (GeocodeOutcome.success info, c1, false)) ∧
    (∀ (cache : Cache) (now : ℚ) (name key : String) (entry : CacheEntry),
       cache.find? (fun kv => kv.1 == cacheKeyOf name) = some (key, entry) →
       ¬ (now - entry.cachedAt < 24) →
       getCachedGeocode cache now name =
         (none, cache.filter (fun kv => kv.1 != cacheKeyOf name))) :=
  ⟨fun cache provider provider2 now now2 name name2 language language2 info c1 h1 h2 h3 =>
    geocode_success_idempotent cache provider provider2 now now2 name name2
      language language2 info c1 h1 h2 h3,
   fun cache now name key entry h1 h2 =>
    getCachedGeocode_stale_evicts cache now name key entry h1 h2⟩

def c7GoodResult : GeoResult :=
  { formatted_address := "Saswad, Maharashtra, India"
  , address_components := [⟨"Saswad", "Saswad", ["locality"]⟩]
  , geometry := ⟨⟨Rat.divInt 1834 100, Rat.divInt 7403 100⟩, "APPROXIMATE", none⟩
  , place_id := "sas1" }

def c7GoodProvider : String → ProviderResp := fun _ => .ok [c7GoodResult]

def c7Info : GeocodeSuccess :=
  { villageName := "Saswad"
  , coordinates := ⟨Rat.divInt 1834 100, Rat.divInt 7403 100⟩
  , formattedAddress := "Saswad, Maharashtra, India"
  , placeId := "sas1"
  , administrative := { emptyAdminDetails with village := some "Saswad" }
  , bounds := none
  , locationType := "APPROXIMATE"
  , confidence := 130
  , geocodedAt := 0 }

def c7Cache : Cache :=
  [("saswad", { villageName := "Saswad", result := GeocodeOutcome.success c7Info, cachedAt := 0 })]

/-- C7 witness: a concrete successful first call is served from the cache an
hour later without a provider lookup, and a 30-hour-old entry is evicted. -/
theorem C7_cache_amended_witness :
    geocodeVillage c7Cache c7GoodProvider 1 "Saswad" Lang.en =
      (GeocodeOutcome.success c7Info, c7Cache, false) ∧
    getCachedGeocode c7Cache 30 "Saswad" = (none, []) :=
  ⟨C7_cache_amended.1 [] c7GoodProvider c7GoodProvider 0 1 "Saswad" "Saswad"
      Lang.en Lang.en c7Info c7Cache (by decide) rfl (by norm_num),
   C7_cache_amended.2 c7Cache 30 "Saswad" "saswad"
      { villageName := "Saswad", result := GeocodeOutcome.success c7Info, cachedAt := 0 }
      (by decide) (by norm_num)⟩

def c7FailProvider : String → ProviderResp := fun _ => .ok []

/-- C7 counterexample: when the first call fails (village not found),
nothing is cached, so a second call one hour later issues provider lookups
again — the claim's "second call within 24 hours is served from the cache
without a provider lookup" is false for such a name. -/
theorem C7_counterexample :
    (geocodeVillage [] c7FailProvider 0 "Pimpri" Lang.en).1 =
      GeocodeOutcome.notFound (notFoundMessage Lang.en) ∧
    (geocodeVillage [] c7FailProvider 0 "Pimpri" Lang.en).2.1 = [] ∧
    (geocodeVillage ((geocodeVillage [] c7FailProvider 0 "Pimpri" Lang.en).2.1)
        c7FailProvider 1 "Pimpri" Lang.en).2.2 = true := by
  refine ⟨by decide, by decide, by decide⟩

/-! ### Claim C8: provider-error fallback -/

/-- Folding the scan over responses that are all errors leaves the
accumulator unchanged. -/
theorem foldl_scanStep_all_error (searchTerm : String) (l : List ProviderResp)
    (acc : Option GeoResult × ℕ) (h : ∀ r ∈ l, r = Except.error ()) :
    l.foldl (scanStep searchTerm) acc = acc := by
  induction l generalizing acc with
  | nil => rfl
  | cons r t ih =>
    rw [List.foldl_cons]
    have hr := h r (List.mem_cons_self r t)
    subst hr
    rw [show scanStep searchTerm acc (Except.error ()) = acc from rfl]
    exact ih acc (fun x hx => h x (List.mem_cons_of_mem _ hx))

/-- C8 amended: a provider error on one query template is swallowed — the
scan over the templates behaves as if the erroring template were not there —
and when every template's lookup errors (total failure), `geocodeVillage`
returns the `not_found` failure with its localized message (not the
`service_error` one). -/
theorem C8_error_fallback_amended :
    (∀ (searchTerm : String) (l1 l2 : List ProviderResp),
       scanBest searchTerm (l1 ++ Except.error () :: l2) = scanBest searchTerm (l1 ++ l2)) ∧
    (∀ (cache : Cache) (provider : String → ProviderResp) (now : ℚ) (name : String)
       (language : Lang) (c : Cache),
       getCachedGeocode cache now name = (none, c) →
       (∀ q ∈ searchQueries name, provider q = Except.error ()) →
       geocodeVillage cache provider now name language =
         (GeocodeOutcome.notFound (notFoundMessage language), c, true)) := by
  constructor
  · intro searchTerm l1 l2
    unfold scanBest
    rw [List.foldl_append, List.foldl_cons,
      show ∀ acc, scanStep searchTerm acc (Except.error ()) = acc from fun _ => rfl,
      ← List.foldl_append]
  · intro cache provider now name language c hmiss hall
    have hresp : scanBest name ((searchQueries name).map provider) = (none, 0) := by
      unfold scanBest
      exact foldl_scanStep_all_error name _ _ (by
        intro r hr
        obtain ⟨q, hq, rfl⟩ := List.mem_map.mp hr
        exact hall q hq)
    unfold geocodeVillage
    rw [hmiss]
    simp only [hresp]

def c8Provider : String → ProviderResp := fun _ => Except.error ()

/-- C8 counterexample: with every query template erroring, the outcome is
the `not_found` failure, not the `service_error` one the claim names. -/
theorem C8_counterexample :
    (geocodeVillage [] c8Provider 0 "Ranjangaon" Lang.en).1 =
      GeocodeOutcome.notFound (notFoundMessage Lang.en) ∧
    (geocodeVillage [] c8Provider 0 "Ranjangaon" Lang.en).1.isServiceError = false := by
  refine ⟨by decide, by decide⟩

/-- C8 witness: the template-skipping equation at a concrete template list,
and the total-failure outcome on a concrete all-error provider. -/
theorem C8_error_fallback_witness :
    scanBest "Alandi" ([] ++ Except.error () :: [Except.ok [c4Mumbai]]) =
      scanBest "Alandi" ([] ++ [Except.ok [c4Mumbai]]) ∧
    geocodeVillage [] c8Provider 0 "Ranjangaon" Lang.en =
      (GeocodeOutcome.notFound (notFoundMessage Lang.en), [], true) :=
  ⟨C8_error_fallback_amended.1 "Alandi" [] [Except.ok [c4Mumbai]],
   C8_error_fallback_amended.2 [] c8Provider 0 "Ranjangaon" Lang.en []
     (by decide) (fun q _ => rfl)⟩

/-! ### Claim C9: the relevance-scoring formula -/

/-- The relevance-scoring formula as the specification sentence reads: the
per-component exact/substring points summed as in the source, but the `+30`
district bonus and `+20` state bonus granted at most once (when such a
component exists), plus the formatted-address and precision-tier bonuses.
Written from the spec's words, to be compared with
`calculateRelevanceScore`. -/
def specRelevanceScore (result : GeoResult) (searchTerm : String) : ℕ :=
  let searchLower := toLowerStr searchTerm
  (result.address_components.map (exactOrSubstringScore searchLower)).sum
    + (if result.address_components.any (fun component =>
          component.types.contains "administrative_area_level_2" &&
          strIncludes (toLowerStr component.long_name) "pune") then 30 else 0)
    + (if result.address_components.any (fun component =>
          component.types.contains "administrative_area_level_1" &&
          strIncludes (toLowerStr component.long_name) "maharashtra") then 20 else 0)
    + (if strIncludes (toLowerStr result.formatted_address) searchLower then 25 else 0)
    + locationTypeBonus result.geometry.location_type

/-- The scoring formula with the administrative bonuses granted per
matching component (the amendment the code forces), written as separate
sums to be compared with `calculateRelevanceScore`. -/
def specRelevanceScoreAmended (result : GeoResult) (searchTerm : String) : ℕ :=
  let searchLower := toLowerStr searchTerm
  (result.address_components.map (exactOrSubstringScore searchLower)).sum
    + (result.address_components.map districtBonusOf).sum
    + (result.address_components.map stateBonusOf).sum
    + (if strIncludes (toLowerStr result.formatted_address) searchLower then 25 else 0)
    + locationTypeBonus result.geometry.location_type

/-- A result with two second-level `pune` components and two first-level
`maharashtra` components: the source grants every bonus per component, the
spec's sentence grants each at most once. -/
def c9Result : GeoResult :=
  { formatted_address := "Somewhere"
  , address_components :=
      [ ⟨"Pune East", "PE", ["administrative_area_level_2"]⟩
      , ⟨"Pune West", "PW", ["administrative_area_level_2"]⟩
      , ⟨"Maharashtra A", "MA", ["administrative_area_level_1"]⟩
      , ⟨"Maharashtra B", "MB", ["administrative_area_level_1"]⟩ ]
  , geometry := ⟨⟨Rat.divInt 185 10, Rat.divInt 738 10⟩, "APPROXIMATE", none⟩
  , place_id := "p9" }

/-- C9 counterexample: on `c9Result` the source's score (105) differs from
the spec sentence's weighted sum (55). -/
theorem C9_counterexample :
    calculateRelevanceScore c9Result "zzz" = 105 ∧
    specRelevanceScore c9Result "zzz" = 55 ∧
    calculateRelevanceScore c9Result "zzz" ≠ specRelevanceScore c9Result "zzz" := by
  refine ⟨by decide, by decide, by decide⟩

theorem sum_map_componentScore (searchLower : String) (l : List AddressComponent) :
    (l.map (componentScore searchLower)).sum =
      (l.map (exactOrSubstringScore searchLower)).sum +
        (l.map districtBonusOf).sum + (l.map stateBonusOf).sum := by
  induction l with
  | nil => rfl
  | cons c t ih =>
    simp only [List.map_cons, List.sum_cons, ih, componentScore]
    omega

def firstCandidates (resps : List ProviderResp) : List GeoResult :=
  resps.filterMap (fun resp =>
    match resp with
    | .ok (r :: _) => some r
    | _ => none)

theorem foldl_scanStep_mono (searchTerm : String) (l : List ProviderResp)
    (acc : Option GeoResult × ℕ) :
    acc.2 ≤ (l.foldl (scanStep searchTerm) acc).2 := by
  induction l generalizing acc with
  | nil => exact le_refl _
  | cons r t ih =>
    rw [List.foldl_cons]
    refine le_trans ?_ (ih (scanStep searchTerm acc r))
    cases r with
    | error e => exact le_refl _
    | ok rs =>
      cases rs with
      | nil => exact le_refl _
      | cons g gs =>
        simp only [scanStep]
        split_ifs with hlt
        · exact le_of_lt hlt
        · exact le_refl _

theorem foldl_scanStep_ge_candidates (searchTerm : String) (l : List ProviderResp)
    (acc : Option GeoResult × ℕ) :
    ∀ r2 ∈ firstCandidates l,
      calculateRelevanceScore r2 searchTerm ≤ (l.foldl (scanStep searchTerm) acc).2 := by
  induction l generalizing acc with
  | nil => intro r2 hr2; simp [firstCandidates] at hr2
  | cons r t ih =>
    intro r2 hr2
    rw [List.foldl_cons]
    cases r with
    | error e =>
      simp only [firstCandidates, List.filterMap_cons] at hr2
      exact ih (scanStep searchTerm acc (Except.error e)) r2 hr2
    | ok rs =>
      cases rs with
      | nil =>
        simp only [firstCandidates, List.filterMap_cons] at hr2
        exact ih (scanStep searchTerm acc (Except.ok [])) r2 hr2
      | cons g gs =>
        simp only [firstCandidates, List.filterMap_cons, List.mem_cons] at hr2
        rcases hr2 with rfl | hr2
        · refine le_trans ?_ (foldl_scanStep_mono searchTerm t (scanStep searchTerm acc (Except.ok (r2 :: gs))))
          simp only [scanStep]
          split_ifs with hlt
          · exact le_refl _
          · omega
        · exact ih (scanStep searchTerm acc (Except.ok (g :: gs))) r2 hr2

theorem foldl_scanStep_result (searchTerm : String) (l : List ProviderResp)
    (acc : Option GeoResult × ℕ) :
    l.foldl (scanStep searchTerm) acc = acc ∨
      (∃ r, (l.foldl (scanStep searchTerm) acc).1 = some r ∧
        (l.foldl (scanStep searchTerm) acc).2 = calculateRelevanceScore r searchTerm) := by
  induction l generalizing acc with
  | nil => exact Or.inl rfl
  | cons r t ih =>
    rw [List.foldl_cons]
    cases r with
    | error e => exact ih acc
    | ok rs =>
      cases rs with
      | nil => exact ih acc
      | cons g gs =>
        simp only [scanStep]
        split_ifs with hlt
        · rcases ih (some g, calculateRelevanceScore g searchTerm) with heq | hex
          · exact Or.inr ⟨g, by rw [heq], by rw [heq]⟩
          · exact Or.inr hex
        · exact ih acc

/-- C9 amended: `calculateRelevanceScore` is the weighted sum with the
administrative bonuses granted per matching component (not at most once),
and `geocodeVillage`'s template scan keeps a candidate whose score is the
relevance score and is maximal among all candidates seen. -/
theorem C9_scoring_amended :
    (∀ (result : GeoResult) (searchTerm : String),
       calculateRelevanceScore result searchTerm = specRelevanceScoreAmended result searchTerm) ∧
    (∀ (searchTerm : String) (resps : List ProviderResp) (r : GeoResult) (s : ℕ),
       scanBest searchTerm resps = (some r, s) →
       s = calculateRelevanceScore r searchTerm ∧
       ∀ r2 ∈ firstCandidates resps, calculateRelevanceScore r2 searchTerm ≤ s) := by
  constructor
  · intro result searchTerm
    unfold calculateRelevanceScore specRelevanceScoreAmended
    simp only []
    rw [sum_map_componentScore]
  · intro searchTerm resps r s hscan
    unfold scanBest at hscan
    constructor
    · rcases foldl_scanStep_result searchTerm resps (none, 0) with heq | ⟨r', h1, h2⟩
      · rw [heq] at hscan
        exact absurd hscan (by simp)
      · rw [hscan] at h1 h2
        simp only [Option.some.injEq] at h1
        simp only [] at h2
        rw [h2, h1]
    · intro r2 hr2
      have hge := foldl_scanStep_ge_candidates searchTerm resps (none, 0) r2 hr2
      rw [hscan] at hge
      exact hge

/-- C9 witness: the per-component formula and the kept-candidate property at
a concrete result and scan. -/
theorem C9_scoring_witness :
    calculateRelevanceScore c4Mumbai "Mumbai" = specRelevanceScoreAmended c4Mumbai "Mumbai" ∧
    (130 = calculateRelevanceScore c4Mumbai "Mumbai" ∧
      ∀ r2 ∈ firstCandidates [Except.ok [c4Mumbai]],
        calculateRelevanceScore r2 "Mumbai" ≤ 130) :=
  ⟨C9_scoring_amended.1 c4Mumbai "Mumbai",
   C9_scoring_amended.2 "Mumbai" [Except.ok [c4Mumbai]] c4Mumbai 130 (by decide)⟩

/-! ### Claim C5: atomic transition, at most one active state record -/

/-- The number of active records in a `states` subcollection. -/
def countActive (states : List StateRecord) : ℕ :=
  (states.filter (fun s => s.isActive)).length

theorem countActive_eq_zero (l : List StateRecord) (h : ∀ s ∈ l, s.isActive = false) :
    countActive l = 0 := by
  unfold countActive
  rw [List.filter_eq_nil_iff.mpr (by intro s hs; simp [h s hs])]
  rfl

theorem countActive_append (l1 l2 : List StateRecord) :
    countActive (l1 ++ l2) = countActive l1 + countActive l2 := by
  unfold countActive
  rw [List.filter_append, List.length_append]

/-- C5: `completeStateTransition` flips the current record to inactive with
the extracted-data snapshot and creates the new active record in one batch
(one application), so if every active record before the commit is the
current one, at most one record is active afterwards; and every record at
the current id is stamped inactive/completed with the snapshot. -/
theorem C5_transition_preserves_at_most_one_active (states : List StateRecord)
    (nextId : ℕ) (cur : StateRecord) (ed : Option ExtractedData) (nid : Option String)
    (hcur : cur ∈ states)
    (hactive : ∀ s ∈ states, s.isActive = true → s.id = cur.id)
    (hfresh : ∀ s ∈ states, s.id < nextId) :
    countActive (completeStateTransition states nextId cur.id ed nid).1 ≤ 1 ∧
    (∀ s ∈ (completeStateTransition states nextId cur.id ed nid).1,
      s.id = cur.id → s.isActive = false ∧ s.extractedData = ed ∧ s.isCompleted = true) := by
  have hdeact : ∀ s ∈ states.map (fun s =>
      if s.id == cur.id then
        { s with
            isActive := false,
            extractedData := ed,
            isCompleted := true,
            finalConfidence :=
              ed.bind (fun e => if e.confidence == 0 then none else some e.confidence) }
      else s), s.isActive = false := by
    intro s hs
    obtain ⟨t, ht, rfl⟩ := List.mem_map.mp hs
    by_cases hid : t.id == cur.id
    · simp [hid]
    · simp only [hid, Bool.false_eq_true, if_false]
      by_cases hact : t.isActive = true
      · exact absurd (beq_iff_eq.mpr (hactive t ht hact)) hid
      · simpa using hact
  have hstamp : ∀ s ∈ states.map (fun s =>
      if s.id == cur.id then
        { s with
            isActive := false,
            extractedData := ed,
            isCompleted := true,
            finalConfidence :=
              ed.bind (fun e => if e.confidence == 0 then none else some e.confidence) }
      else s), s.id = cur.id → s.isActive = false ∧ s.extractedData = ed ∧ s.isCompleted = true := by
    intro s hs hsid
    obtain ⟨t, ht, rfl⟩ := List.mem_map.mp hs
    by_cases hid : t.id == cur.id
    · simp [hid]
    · simp only [hid, Bool.false_eq_true, if_false] at hsid ⊢
      exact absurd (beq_iff_eq.mpr hsid) hid
  unfold completeStateTransition
  cases nid with
  | none =>
    refine ⟨?_, ?_⟩
    · simp only []
      rw [countActive_eq_zero _ hdeact]
      omega
    · intro s hs hsid
      exact hstamp s hs hsid
  | some nid =>
    refine ⟨?_, ?_⟩
    · simp only []
      rw [countActive_append, countActive_eq_zero _ hdeact]
      simp [countActive, newStateRecord]
    · intro s hs hsid
      simp only [List.mem_append] at hs
      rcases hs with hs | hs
      · exact hstamp s hs hsid
      · simp only [List.mem_singleton] at hs
        subst hs
        exact absurd hsid (by
          have := hfresh cur hcur
          simp only [newStateRecord]
          omega)

/-- C5 witness: a concrete one-active-record collection stays at one active
record across a transition. -/
theorem C5_transition_witness :
    countActive (completeStateTransition [newStateRecord 0 "awaiting_name"] 1
      (newStateRecord 0 "awaiting_name").id none (some "awaiting_village")).1 ≤ 1 ∧
    (∀ s ∈ (completeStateTransition [newStateRecord 0 "awaiting_name"] 1
      (newStateRecord 0 "awaiting_name").id none (some "awaiting_village")).1,
      s.id = (newStateRecord 0 "awaiting_name").id →
        s.isActive = false ∧ s.extractedData = none ∧ s.isCompleted = true) :=
  C5_transition_preserves_at_most_one_active [newStateRecord 0 "awaiting_name"] 1
    (newStateRecord 0 "awaiting_name") none (some "awaiting_village")
    (List.mem_singleton.mpr rfl) (by decide) (by decide)

/-! ### Claims C2/C3: unvalidated classifier transitions -/

/-- A citizen mid-registration with one active state record of the given
state id (document id 0), nothing yet collected. -/
def mkTestWorld (stateId : String) : World :=
  { citizen := newCitizen (some "Ramesh")
  , states := [newStateRecord 0 stateId]
  , functionCalls := []
  , nextId := 1 }

/-- A classifier/extractor outcome recommending `nextState` with confidence
0.9 and the given extraction payload. -/
def mkTestResults (currentState nextState : String) (ed : Option ExtractedData) :
    FunctionResults :=
  { stateAnalysis := some
      { current_state := currentState, user_intent := "providing_info"
      , has_required_data := true, next_state := nextState
      , confidence := Rat.divInt 9 10, reason := "provided" }
  , extractedData := ed
  , shouldTransition := true
  , nextState := nextState
  , confidence := Rat.divInt 9 10
  , geocodingError := none }

/-- The village extraction payload used by the C2 run. -/
def c2Extracted : ExtractedData :=
  { full_name := none, village_name := some "Saswad", needs_geocoding := some true
  , confidence := Rat.divInt 9 10, validated_village := none, coordinates := none
  , taluka := none, geocoding := none }

/-- C2: the orchestrator commits whatever `next_state` the classifier
recommends without checking it against `REGISTRATION_STATES.nextStates`:
from `awaiting_village` (whose only declared successor is `completed`) a
recommendation of `awaiting_name` is committed, moving the citizen
backward. -/
theorem C2_unvalidated_transition_code_bug :
    (findCurrentState (mkTestWorld "awaiting_village").states).map (fun s => s.stateId) =
      some "awaiting_village" ∧
    (findCurrentState (processRegistrationWithFunctionCalling (mkTestWorld "awaiting_village")
        Lang.en (mkTestResults "awaiting_village" "awaiting_name" (some c2Extracted)) none).1.states).map
      (fun s => s.stateId) = some "awaiting_name" ∧
    (lookupRegState "awaiting_village").map (fun s => s.nextStates) = some ["completed"] ∧
    "awaiting_name" ∉ (["completed"] : List String) := by
  refine ⟨by decide, by decide, by decide, by decide⟩

/-- The name extraction payload used by the C3 run. -/
def c3Extracted : ExtractedData :=
  { full_name := some "Ramesh Patil", village_name := none, needs_geocoding := none
  , confidence := Rat.divInt 9 10, validated_village := none, coordinates := none
  , taluka := none, geocoding := none }

/-- C3: when the classifier recommends `completed` straight from
`awaiting_name` (its schema allows it), the orchestrator merges the name,
calls `completeRegistration` and sets `isRegistered = true` while `village`
is still null — violating the claimed invariant that `isRegistered` implies
both fields are non-null. -/
theorem C3_isRegistered_without_village_code_bug :
    ((processRegistrationWithFunctionCalling (mkTestWorld "awaiting_name") Lang.en
        (mkTestResults "awaiting_name" "completed" (some c3Extracted)) none).1.citizen.isRegistered
      = true) ∧
    ((processRegistrationWithFunctionCalling (mkTestWorld "awaiting_name") Lang.en
        (mkTestResults "awaiting_name" "completed" (some c3Extracted)) none).1.citizen.village
      = none) ∧
    ((processRegistrationWithFunctionCalling (mkTestWorld "awaiting_name") Lang.en
        (mkTestResults "awaiting_name" "completed" (some c3Extracted)) none).1.citizen.userProvidedName
      = some "Ramesh Patil") ∧
    ((findCurrentState (processRegistrationWithFunctionCalling (mkTestWorld "awaiting_name") Lang.en
        (mkTestResults "awaiting_name" "completed" (some c3Extracted)) none).1.states).map
      (fun s => s.stateId) = some "completed") := by
  refine ⟨by decide, by decide, by decide, by decide⟩

/-! ### Claim C6: the geocode-failure path -/

/-- `updateStateWithFunctionResults` does not change which record is active
or its state id. -/
theorem findCurrentState_update (states : List StateRecord) (cid : ℕ) (fr : FunctionResults) :
    (findCurrentState (updateStateWithFunctionResults states cid fr)).map (fun s => s.stateId) =
      (findCurrentState states).map (fun s => s.stateId) := by
  unfold findCurrentState updateStateWithFunctionResults
  rw [List.filter_map]
  have hact : ((fun s => s.isActive) ∘ (fun s : StateRecord =>
      if s.id == cid then
        { s with
            attempts := s.attempts + 1,
            functionCallResults := s.functionCallResults ++ [fr],
            lastFunctionCallResult := some fr }
      else s)) = fun s => s.isActive := by
    funext s
    by_cases h : s.id = cid <;> simp [h]
  rw [hact, List.getLast?_map, Option.map_map]
  have hsid : ((fun s : StateRecord => s.stateId) ∘ (fun s : StateRecord =>
      if s.id == cid then
        { s with
            attempts := s.attempts + 1,
            functionCallResults := s.functionCallResults ++ [fr],
            lastFunctionCallResult := some fr }
      else s)) = fun s => s.stateId := by
    funext s
    by_cases h : s.id = cid <;> simp [h]
  rw [hsid]

/-- C6 amended: on a geocoding failure the orchestrator replies with the
validator's message verbatim, does not continue, leaves the citizen record
and the audit subcollection as they were, only updates the active state
record (incrementing its attempt counter and appending the failure to its
function-call history — the failure does consume an attempt), and stays in
the same state. -/
theorem C6_geocode_failure_amended (w : World) (language : Lang) (fr : FunctionResults)
    (ctx : Option String) (cur : StateRecord) (msg : String)
    (hcur : findCurrentState w.states = some cur)
    (hni : cur.stateId ≠ "initial")
    (hge : fr.geocodingError = some msg) :
    (processRegistrationWithFunctionCalling w language fr ctx).2.response = msg ∧
    (processRegistrationWithFunctionCalling w language fr ctx).2.shouldContinue = false ∧
    (processRegistrationWithFunctionCalling w language fr ctx).1.citizen = w.citizen ∧
    (processRegistrationWithFunctionCalling w language fr ctx).1.states =
      updateStateWithFunctionResults w.states cur.id fr ∧
    (processRegistrationWithFunctionCalling w language fr ctx).1.functionCalls =
      w.functionCalls ∧
    (findCurrentState (processRegistrationWithFunctionCalling w language fr ctx).1.states).map
      (fun s => s.stateId) = some cur.stateId := by
  have hb : (cur.stateId == "initial") = false := beq_eq_false_iff_ne.mpr hni
  have hrun : processRegistrationWithFunctionCalling w language fr ctx =
      ({ w with states := updateStateWithFunctionResults w.states cur.id fr },
       { shouldContinue := false, response := msg, functionCallResults := some fr }) := by
    unfold processRegistrationWithFunctionCalling
    rw [hcur]
    simp only [hb, Bool.false_eq_true, if_false, hge]
  rw [hrun]
  refine ⟨rfl, rfl, rfl, rfl, rfl, ?_⟩
  rw [findCurrentState_update, hcur]
  rfl

/-- The function results the pipeline produces on a geocoding failure:
extraction dropped, no transition, confidence zeroed, the localized message
in `geocodingError`. -/
def c6FailResults : FunctionResults :=
  { stateAnalysis := some
      { current_state := "awaiting_village", user_intent := "providing_info"
      , has_required_data := true, next_state := "completed"
      , confidence := Rat.divInt 9 10, reason := "village given" }
  , extractedData := none
  , shouldTransition := false
  , nextState := "awaiting_village"
  , confidence := 0
  , geocodingError := some (boundaryMessage Lang.en) }

/-- C6 counterexample: the geocode-failure reprompt increments the active
state record's attempt counter (from 0 to 1), so it does consume an
attempt, contrary to the claim. -/
theorem C6_attempt_counterexample :
    (mkTestWorld "awaiting_village").states.map (fun s => s.attempts) = [0] ∧
    (processRegistrationWithFunctionCalling (mkTestWorld "awaiting_village") Lang.en
        c6FailResults none).1.states.map (fun s => s.attempts) = [1] := by
  refine ⟨by decide, by decide⟩

/-- C6 witness: the amended behaviour at a concrete world and failure. -/
theorem C6_geocode_failure_witness :
    (processRegistrationWithFunctionCalling (mkTestWorld "awaiting_village") Lang.en
        c6FailResults none).2.response = boundaryMessage Lang.en ∧
    (processRegistrationWithFunctionCalling (mkTestWorld "awaiting_village") Lang.en
        c6FailResults none).2.shouldContinue = false ∧
    (processRegistrationWithFunctionCalling (mkTestWorld "awaiting_village") Lang.en
        c6FailResults none).1.citizen = (mkTestWorld "awaiting_village").citizen ∧
    (processRegistrationWithFunctionCalling (mkTestWorld "awaiting_village") Lang.en
        c6FailResults none).1.states =
      updateStateWithFunctionResults (mkTestWorld "awaiting_village").states
        (newStateRecord 0 "awaiting_village").id c6FailResults ∧
    (processRegistrationWithFunctionCalling (mkTestWorld "awaiting_village") Lang.en
        c6FailResults none).1.functionCalls = (mkTestWorld "awaiting_village").functionCalls ∧
    (findCurrentState (processRegistrationWithFunctionCalling (mkTestWorld "awaiting_village")
        Lang.en c6FailResults none).1.states).map (fun s => s.stateId) =
      some (newStateRecord 0 "awaiting_village").stateId :=
  C6_geocode_failure_amended (mkTestWorld "awaiting_village") Lang.en c6FailResults none
    (newStateRecord 0 "awaiting_village") (boundaryMessage Lang.en)
    (by decide) (by decide) rfl

/-! ### Claim C1: the confidence gate -/

/-- A low-relevance in-bounds Saswad result: no address components, address
substring +25, RANGE_INTERPOLATED +15, so relevance score 40 and geocode
confidence 40/100. -/
def c1GeoResult : GeoResult :=
  { formatted_address := "Saswad, Maharashtra, India"
  , address_components := []
  , geometry := ⟨⟨Rat.divInt 1834 100, Rat.divInt 7403 100⟩, "RANGE_INTERPOLATED", none⟩
  , place_id := "sas2" }

def c1Provider : String → ProviderResp := fun _ => Except.ok [c1GeoResult]

def c1StateAnalysis : StateAnalysis :=
  { current_state := "awaiting_village", user_intent := "providing_info"
  , has_required_data := true, next_state := "completed"
  , confidence := Rat.divInt 9 10, reason := "village provided" }

def c1Raw : ExtractedData :=
  { full_name := none, village_name := some "Saswad", needs_geocoding := some true
  , confidence := Rat.divInt 9 10, validated_village := none, coordinates := none
  , taluka := none, geocoding := none }

/-- The function results the pipeline computes for the C1 scenario. -/
def c1FR : FunctionResults :=
  (processRegistrationWithFunctions "awaiting_village" Lang.en (some c1StateAnalysis)
    (some c1Raw) [] c1Provider 0).1

/-- C1 counterexample: the pipeline clamps the extraction confidence to
`min(0.9, 40/100) = 0.4 ≤ 0.7`, yet the orchestrator's gate tests only the
classifier confidence (0.9), so the village is merged into the citizen
record and the registration completed from a transition whose combined
confidence is at most 0.7. -/
theorem C1_confidence_counterexample :
    (c1FR.extractedData.map (fun e => e.confidence)).getD 1 = Rat.divInt 2 5 ∧
    (Rat.divInt 2 5 : ℚ) ≤ 0.7 ∧
    c1FR.confidence = Rat.divInt 9 10 ∧
    (processRegistrationWithFunctionCalling (mkTestWorld "awaiting_village") Lang.en
        c1FR none).1.citizen.village = some "Saswad" ∧
    (processRegistrationWithFunctionCalling (mkTestWorld "awaiting_village") Lang.en
        c1FR none).1.citizen.isRegistered = true := by
  refine ⟨by decide, by norm_num [Rat.divInt_eq_div], by decide, by decide, by decide⟩

/-- C1 amended: in a non-initial state with no geocoding error, the citizen
record is mutated and the state advanced only when the classifier reported
the data present (`shouldTransition`), an extraction payload exists, and the
classifier confidence — not the clamped combined confidence stored in
`extractedData.confidence` — exceeds 0.7; when the gate passes, the merge is
exactly `updateCitizenDataFromFunctions` (plus `isRegistered` on
completion). -/
theorem C1_confidence_gate_amended (w : World) (language : Lang) (fr : FunctionResults)
    (ctx : Option String) (cur : StateRecord)
    (hcur : findCurrentState w.states = some cur)
    (hni : cur.stateId ≠ "initial")
    (hge : fr.geocodingError = none) :
    (¬ (fr.shouldTransition = true ∧ fr.extractedData.isSome = true ∧
        confidenceThreshold < fr.confidence) →
      (processRegistrationWithFunctionCalling w language fr ctx).1.citizen = w.citizen ∧
      (findCurrentState (processRegistrationWithFunctionCalling w language fr ctx).1.states).map
        (fun s => s.stateId) = some cur.stateId) ∧
    (∀ ed, fr.extractedData = some ed → fr.shouldTransition = true →
      confidenceThreshold < fr.confidence →
      (processRegistrationWithFunctionCalling w language fr ctx).1.citizen =
        (if fr.nextState == "completed" then
          { updateCitizenDataFromFunctions w.citizen cur.stateId ed with isRegistered := true }
        else updateCitizenDataFromFunctions w.citizen cur.stateId ed)) := by
  have hb : (cur.stateId == "initial") = false := beq_eq_false_iff_ne.mpr hni
  constructor
  · intro hng
    match hed : fr.extractedData with
    | none =>
      have hrun : processRegistrationWithFunctionCalling w language fr ctx =
          ({ w with
              states := updateStateWithFunctionResults w.states cur.id fr,
              functionCalls := w.functionCalls ++ [(cur.stateId, fr)] },
           { shouldContinue := false
           , response := ctx.getD (getRetryPromptForState cur.stateId language)
           , functionCallResults := some fr }) := by
        unfold processRegistrationWithFunctionCalling
        rw [hcur]
        simp only [hb, Bool.false_eq_true, if_false, hge, hed]
      rw [hrun]
      exact ⟨rfl, by rw [findCurrentState_update, hcur]; rfl⟩
    | some ed =>
      have hcond : (fr.shouldTransition &&
          decide (confidenceThreshold < fr.confidence)) = false := by
        rcases Bool.eq_false_or_eq_true fr.shouldTransition with h | h
        · simp only [h, Bool.true_and, decide_eq_false_iff_not, not_lt]
          by_contra hle
          push_neg at hle
          exact hng ⟨h, by rw [hed]; rfl, hle⟩
        · simp [h]
      have hrun : processRegistrationWithFunctionCalling w language fr ctx =
          ({ w with
              states := updateStateWithFunctionResults w.states cur.id fr,
              functionCalls := w.functionCalls ++ [(cur.stateId, fr)] },
           { shouldContinue := false
           , response := ctx.getD (getRetryPromptForState cur.stateId language)
           , functionCallResults := some fr }) := by
        unfold processRegistrationWithFunctionCalling
        rw [hcur]
        simp only [hb, Bool.false_eq_true, if_false, hge, hed, hcond]
      rw [hrun]
      exact ⟨rfl, by rw [findCurrentState_update, hcur]; rfl⟩
  · intro ed hed hst hconf
    have hcond : (fr.shouldTransition &&
        decide (confidenceThreshold < fr.confidence)) = true := by
      simp [hst, hconf]
    by_cases hns : (fr.nextState == "completed") = true
    · have hrun : (processRegistrationWithFunctionCalling w language fr ctx).1.citizen =
          { updateCitizenDataFromFunctions w.citizen cur.stateId ed with isRegistered := true } := by
        unfold processRegistrationWithFunctionCalling
        rw [hcur]
        simp only [hb, Bool.false_eq_true, if_false, hge, hed, hcond, hns, if_true]
      rw [hrun, if_pos hns]
    · have hns' : (fr.nextState == "completed") = false := by
        simpa using hns
      have hrun : (processRegistrationWithFunctionCalling w language fr ctx).1.citizen =
          updateCitizenDataFromFunctions w.citizen cur.stateId ed := by
        unfold processRegistrationWithFunctionCalling
        rw [hcur]
        simp only [hb, Bool.false_eq_true, if_false, hge, hed, hcond, hns', if_true]
      rw [hrun, if_neg hns]

/-- A classifier outcome below the threshold (confidence 0.5). -/
def c1LowFR : FunctionResults :=
  { mkTestResults "awaiting_name" "awaiting_village" (some c3Extracted) with
      confidence := Rat.divInt 1 2 }

/-- C1 witness: below the threshold nothing is merged and the state stays;
above it the merge is exactly `updateCitizenDataFromFunctions`. -/
theorem C1_confidence_gate_witness :
    ((processRegistrationWithFunctionCalling (mkTestWorld "awaiting_name") Lang.en
        c1LowFR none).1.citizen = (mkTestWorld "awaiting_name").citizen ∧
      (findCurrentState (processRegistrationWithFunctionCalling (mkTestWorld "awaiting_name")
          Lang.en c1LowFR none).1.states).map (fun s => s.stateId) =
        some (newStateRecord 0 "awaiting_name").stateId) ∧
    ((processRegistrationWithFunctionCalling (mkTestWorld "awaiting_name") Lang.en
        (mkTestResults "awaiting_name" "awaiting_village" (some c3Extracted)) none).1.citizen =
      (if (mkTestResults "awaiting_name" "awaiting_village" (some c3Extracted)).nextState
          == "completed" then
        { updateCitizenDataFromFunctions (mkTestWorld "awaiting_name").citizen
            (newStateRecord 0 "awaiting_name").stateId c3Extracted with isRegistered := true }
      else updateCitizenDataFromFunctions (mkTestWorld "awaiting_name").citizen
        (newStateRecord 0 "awaiting_name").stateId c3Extracted)) :=
  ⟨(C1_confidence_gate_amended (mkTestWorld "awaiting_name") Lang.en c1LowFR none
      (newStateRecord 0 "awaiting_name") (by decide) (by decide) rfl).1
    (fun h => absurd h.2.2 (by norm_num [confidenceThreshold, c1LowFR, mkTestResults,
      Rat.divInt_eq_div])),
   (C1_confidence_gate_amended (mkTestWorld "awaiting_name") Lang.en
      (mkTestResults "awaiting_name" "awaiting_village" (some c3Extracted)) none
      (newStateRecord 0 "awaiting_name") (by decide) (by decide) rfl).2
    c3Extracted rfl rfl
    (by norm_num [confidenceThreshold, mkTestResults, Rat.divInt_eq_div])⟩
